import Mathlib

/-!
Shallow embedding of the cloud-lock command-dispatch service (src/main.py).

The service keeps a per-device single-slot command store and an append-only
event log, both in memory.  Handlers: `api_unlock` (admin issues an unlock
command), `api_command` (device polls, with lazy expiry), `api_ack` (device
acknowledges), `api_events` (admin reads the event tail).

Time is passed explicitly (`t : Int`) in place of `now()`, and the random
`request_id` produced by `secrets.token_hex(8)` is passed as an oracle
argument `req_id` to `api_unlock`.
-/

deriving instance DecidableEq for Except

/-- Mirrors `ADMIN_API_KEY` in src/main.py. -/
def ADMIN_API_KEY : String := "CHANGE_ME_ADMIN_KEY_12345"

/-- Mirrors the `DEVICE_KEYS` dict in src/main.py: lookup of the per-device
pre-shared secret; `none` means the device is unknown. -/
def DEVICE_KEYS : String → Option String := fun d =>
  if d = "lock1" then some "CHANGE_ME_DEVICE_KEY_LOCK1" else none

/-- One per-device command slot, the dict stored in `commands[device_id]`. -/
structure Cmd where
  action : String
  request_id : String
  expires_at : Int
  created_at : Int
deriving DecidableEq, Repr

/-- The cleared / NONE slot value `{"action": "none", "request_id": "", "expires_at": 0, "created_at": 0}`. -/
def emptyCmd : Cmd := { action := "none", request_id := "", expires_at := 0, created_at := 0 }

/-- An audit-log entry.  Python uses heterogeneous dicts; optional fields that a
given event type omits are `none` here. -/
structure Event where
  ts : Int
  type : String
  device_id : String
  request_id : Option String
  current_request_id : Option String
  status : Option String
deriving DecidableEq, Repr

/-- The whole in-memory server state: `commands` dict and `events` list. -/
structure ServerState where
  commands : String → Option Cmd
  events : List Event

/-- The state at process start: empty `commands` dict, empty `events` list. -/
def initState : ServerState := { commands := fun _ => none, events := [] }

/-- HTTPException carrying a status code and detail string. -/
structure HTTPError where
  status_code : Nat
  detail : String
deriving DecidableEq, Repr

/-- The slot-creating half of `ensure_device`: if the (known) device has no
entry in `commands`, insert the NONE slot.  (The unknown-device check of
`ensure_device` is inlined at each call site as the match on `DEVICE_KEYS`.) -/
def ensureSlot (device_id : String) (s : ServerState) : ServerState :=
  match s.commands device_id with
  | some _ => s
  | none =>
      { s with commands := fun x => if x = device_id then some emptyCmd else s.commands x }

/-- `payload.ttl_seconds or 10`: Python `or` falls back to 10 both when the
field is absent (None) and when it is 0 (falsy). -/
def ttlOrDefault : Option Int → Int
  | none => 10
  | some v => if v = 0 then 10 else v

/-- `max(3, min(ttl, 60))` from `api_unlock`. -/
def clampTtl (ttl_seconds : Option Int) : Int :=
  max 3 (min (ttlOrDefault ttl_seconds) 60)

/-- `if len(events) > 200: del events[:50]` — the trim applied (only) by
`api_unlock` after appending. -/
def trimEvents (es : List Event) : List Event :=
  if es.length > 200 then es.drop 50 else es

/-- Response body of a successful `/api/unlock`. -/
structure UnlockResponse where
  ok : Bool
  device_id : String
  action : String
  request_id : String
  expires_at : Int
deriving DecidableEq, Repr

/-- Response body of `/api/command`: either the bare `{"action": "none"}`
dict returned on the expiry path, or the stored command dict. -/
inductive PollResponse where
  | actionNone
  | full (c : Cmd)
deriving DecidableEq, Repr

/-- The `action` field of a poll response. -/
def PollResponse.action : PollResponse → String
  | .actionNone => "none"
  | .full c => c.action

/-- Response body of `/api/ack`: `{"ok": bool}` plus the mismatch detail. -/
structure AckResponse where
  ok : Bool
  detail : Option String
deriving DecidableEq, Repr

/-- The `unlock_issued` event dict appended by `api_unlock`. -/
def issuedEvent (t : Int) (d rid : String) : Event :=
  { ts := t, type := "unlock_issued", device_id := d,
    request_id := some rid, current_request_id := none, status := none }

/-- The `command_expired` event dict appended by `api_command`. -/
def expiredEvent (t : Int) (d : String) : Event :=
  { ts := t, type := "command_expired", device_id := d,
    request_id := none, current_request_id := none, status := none }

/-- The `ack` event dict appended by `api_ack` on a match. -/
def ackEvent (t : Int) (d rid status : String) : Event :=
  { ts := t, type := "ack", device_id := d,
    request_id := some rid, current_request_id := none, status := some status }

/-- The `ack_mismatch` event dict appended by `api_ack` on a mismatch. -/
def mismatchEvent (t : Int) (d rid curRid status : String) : Event :=
  { ts := t, type := "ack_mismatch", device_id := d,
    request_id := some rid, current_request_id := some curRid, status := some status }

/-- `POST /api/unlock` (src/main.py `api_unlock`): admin auth, then
`ensure_device`, then overwrite the slot with a fresh unlock command with
clamped ttl, append an `unlock_issued` event and trim the log. -/
def api_unlock (device_id : String) (ttl_seconds : Option Int)
    (x_api_key : Option String) (req_id : String) (t : Int) (s : ServerState) :
    Except HTTPError UnlockResponse × ServerState :=
  if x_api_key = some ADMIN_API_KEY then
    match DEVICE_KEYS device_id with
    | none => (.error { status_code := 404, detail := "Unknown device_id" }, s)
    | some _ =>
        let s1 := ensureSlot device_id s
        let exp := t + clampTtl ttl_seconds
        let s2 : ServerState :=
          { commands := fun x =>
              if x = device_id then
                some { action := "unlock", request_id := req_id, expires_at := exp, created_at := t }
              else s1.commands x,
            events := trimEvents (s1.events ++ [issuedEvent t device_id req_id]) }
        (.ok { ok := true, device_id := device_id, action := "unlock",
               request_id := req_id, expires_at := exp }, s2)
  else (.error { status_code := 401, detail := "Invalid admin API key" }, s)

/-- `GET /api/command` (src/main.py `api_command`): `ensure_device`, then if
the stored command is pending and `t` is past `expires_at`, reset the slot,
append a `command_expired` event (no trim) and return the bare NONE dict;
otherwise return the stored command unchanged. -/
def api_command (device_id : String) (t : Int) (s : ServerState) :
    Except HTTPError PollResponse × ServerState :=
  match DEVICE_KEYS device_id with
  | none => (.error { status_code := 404, detail := "Unknown device_id" }, s)
  | some _ =>
      let s1 := ensureSlot device_id s
      match s1.commands device_id with
      | none => (.ok (.full emptyCmd), s1)
      | some c =>
          if c.action ≠ "none" ∧ t > c.expires_at then
            (.ok .actionNone,
             { commands := fun x => if x = device_id then some emptyCmd else s1.commands x,
               events := s1.events ++ [expiredEvent t device_id] })
          else (.ok (.full c), s1)

/-- `POST /api/ack` (src/main.py `api_ack`): `ensure_device`, then device
auth, then compare the submitted `request_id` against the stored one; a match
clears the slot and appends an `ack` event, a mismatch leaves the slot alone
and appends an `ack_mismatch` event (no trim on either path). -/
def api_ack (device_id request_id status : String) (x_device_key : Option String)
    (t : Int) (s : ServerState) : Except HTTPError AckResponse × ServerState :=
  match DEVICE_KEYS device_id with
  | none => (.error { status_code := 404, detail := "Unknown device_id" }, s)
  | some expected =>
      let s1 := ensureSlot device_id s
      if x_device_key = some expected then
        match s1.commands device_id with
        | none =>
            -- `commands.get(device_id, {})` yields `{}`; `{}.get("request_id")` is
            -- None, which differs from the (string) payload id, so: mismatch,
            -- with `current.get("request_id", "")` defaulting to "".
            (.ok { ok := false, detail := some "request_id mismatch" },
             { s1 with events := s1.events ++ [mismatchEvent t device_id request_id "" status] })
        | some c =>
            if request_id = c.request_id then
              (.ok { ok := true, detail := none },
               { commands := fun x => if x = device_id then some emptyCmd else s1.commands x,
                 events := s1.events ++ [ackEvent t device_id request_id status] })
            else
              (.ok { ok := false, detail := some "request_id mismatch" },
               { s1 with events := s1.events ++ [mismatchEvent t device_id request_id c.request_id status] })
      else (.error { status_code := 401, detail := "Invalid device key" }, s1)

/-- `GET /api/events` (src/main.py `api_events`): admin auth, then return
`events[-100:]`, the last at-most-100 events in append order. -/
def api_events (x_api_key : Option String) (s : ServerState) :
    Except HTTPError (List Event) :=
  if x_api_key = some ADMIN_API_KEY then
    .ok (s.events.drop (s.events.length - 100))
  else .error { status_code := 401, detail := "Invalid admin API key" }

/-- The device secret of `lock1` from the `DEVICE_KEYS` dict. -/
def lock1Key : String := "CHANGE_ME_DEVICE_KEY_LOCK1"

/-- A concrete pending command used to instantiate theorems. -/
def pendingCmd : Cmd :=
  { action := "unlock", request_id := "r1", expires_at := 30, created_at := 0 }

/-- A concrete state in which `lock1` holds `pendingCmd`. -/
def pendingState : ServerState :=
  { commands := fun x => if x = "lock1" then some pendingCmd else none, events := [] }

theorem device_keys_lock1 : DEVICE_KEYS "lock1" = some lock1Key := rfl

theorem ensureSlot_of_some {d : String} {c : Cmd} {s : ServerState}
    (hc : s.commands d = some c) : ensureSlot d s = s := by
  simp [ensureSlot, hc]

theorem clampTtl_bounds (ttl : Option Int) : 3 ≤ clampTtl ttl ∧ clampTtl ttl ≤ 60 :=
  ⟨le_max_left _ _, max_le (by norm_num) (min_le_right _ _)⟩

theorem api_unlock_eval (d k req_id : String) (ttl : Option Int) (t : Int)
    (s : ServerState) (hk : DEVICE_KEYS d = some k) :
    api_unlock d ttl (some ADMIN_API_KEY) req_id t s =
      (.ok { ok := true, device_id := d, action := "unlock", request_id := req_id,
             expires_at := t + clampTtl ttl },
       { commands := fun x =>
           if x = d then
             some { action := "unlock", request_id := req_id,
                    expires_at := t + clampTtl ttl, created_at := t }
           else (ensureSlot d s).commands x,
         events := trimEvents ((ensureSlot d s).events ++ [issuedEvent t d req_id]) }) := by
  simp [api_unlock, hk]

theorem api_ack_match_eval (d k rid status : String) (c : Cmd) (t : Int)
    (s : ServerState) (hk : DEVICE_KEYS d = some k) (hc : s.commands d = some c)
    (hr : rid = c.request_id) :
    api_ack d rid status (some k) t s =
      (.ok { ok := true, detail := none },
       { commands := fun x => if x = d then some emptyCmd else s.commands x,
         events := s.events ++ [ackEvent t d rid status] }) := by
  simp [api_ack, hk, ensureSlot_of_some hc, hc, hr]

theorem api_ack_mismatch_eval (d k rid status : String) (c : Cmd) (t : Int)
    (s : ServerState) (hk : DEVICE_KEYS d = some k) (hc : s.commands d = some c)
    (hne : rid ≠ c.request_id) :
    api_ack d rid status (some k) t s =
      (.ok { ok := false, detail := some "request_id mismatch" },
       { s with events := s.events ++ [mismatchEvent t d rid c.request_id status] }) := by
  simp [api_ack, hk, ensureSlot_of_some hc, hc, hne]

theorem api_command_expire_eval (d k : String) (c : Cmd) (t : Int) (s : ServerState)
    (hk : DEVICE_KEYS d = some k) (hc : s.commands d = some c)
    (ha : c.action ≠ "none") (ht : t > c.expires_at) :
    api_command d t s =
      (.ok .actionNone,
       { commands := fun x => if x = d then some emptyCmd else s.commands x,
         events := s.events ++ [expiredEvent t d] }) := by
  simp [api_command, hk, ensureSlot_of_some hc, hc, ha, ht]

theorem api_command_noexpire_eval (d k : String) (c : Cmd) (t : Int) (s : ServerState)
    (hk : DEVICE_KEYS d = some k) (hc : s.commands d = some c)
    (ht : ¬(c.action ≠ "none" ∧ t > c.expires_at)) :
    api_command d t s = (.ok (.full c), s) := by
  simp only [api_command, hk, ensureSlot_of_some hc, hc, if_neg ht]

theorem api_command_none_eval (d k : String) (t : Int) (s : ServerState)
    (hk : DEVICE_KEYS d = some k) (hc : s.commands d = some emptyCmd) :
    api_command d t s = (.ok (.full emptyCmd), s) :=
  api_command_noexpire_eval d k emptyCmd t s hk hc (fun h => h.1 rfl)

/-- C1 counterexample: when the stored request_id is empty and the submitted
one is empty too, the first ack matches and is accepted, and a second ack with
the same (empty) request_id afterwards is ALSO accepted — not rejected as the
claim requires. -/
theorem ack_empty_id_twice_accepted :
    (api_ack "lock1" "" "done" (some lock1Key) 0 initState).1 =
      .ok { ok := true, detail := none } ∧
    (api_ack "lock1" "" "done" (some lock1Key) 1
        (api_ack "lock1" "" "done" (some lock1Key) 0 initState).2).1 =
      .ok { ok := true, detail := none } := by decide

/-- C1 (amended): an ack by a known, correctly authenticated device whose
submitted request_id equals the stored one resets the slot to NONE, appends an
`ack` event carrying the caller-supplied status verbatim and returns
accepted = true; and provided that request_id is non-empty, a second ack with
the same request_id afterwards returns accepted = false. -/
theorem ack_exact_match_clears_slot (d k rid status status2 : String) (c : Cmd)
    (t t2 : Int) (s : ServerState) (hk : DEVICE_KEYS d = some k)
    (hc : s.commands d = some c) (hr : rid = c.request_id) :
    (api_ack d rid status (some k) t s).1 = .ok { ok := true, detail := none } ∧
    ((api_ack d rid status (some k) t s).2).commands d = some emptyCmd ∧
    ((api_ack d rid status (some k) t s).2).events =
      s.events ++ [ackEvent t d rid status] ∧
    (rid ≠ "" →
      (api_ack d rid status2 (some k) t2 (api_ack d rid status (some k) t s).2).1 =
        .ok { ok := false, detail := some "request_id mismatch" }) := by
  have h1 := api_ack_match_eval d k rid status c t s hk hc hr
  rw [h1]
  refine ⟨rfl, by simp, rfl, ?_⟩
  intro hne
  have hc2 : (ServerState.mk
      (fun x => if x = d then some emptyCmd else s.commands x)
      (s.events ++ [ackEvent t d rid status])).commands d = some emptyCmd := by simp
  have h2 := api_ack_mismatch_eval d k rid status2 emptyCmd t2 _ hk hc2
    (by simpa [emptyCmd] using hne)
  rw [h2]

/-- C1 witness: concrete instance of the amended acknowledgment theorem. -/
theorem ack_exact_match_clears_slot_witness :
    (api_ack "lock1" "r1" "done" (some lock1Key) 5 pendingState).1 =
      .ok { ok := true, detail := none } ∧
    ((api_ack "lock1" "r1" "done" (some lock1Key) 5 pendingState).2).commands "lock1" =
      some emptyCmd ∧
    ((api_ack "lock1" "r1" "done" (some lock1Key) 5 pendingState).2).events =
      pendingState.events ++ [ackEvent 5 "lock1" "r1" "done"] ∧
    ("r1" ≠ "" →
      (api_ack "lock1" "r1" "later" (some lock1Key) 6
          (api_ack "lock1" "r1" "done" (some lock1Key) 5 pendingState).2).1 =
        .ok { ok := false, detail := some "request_id mismatch" }) :=
  ack_exact_match_clears_slot "lock1" lock1Key "r1" "done" "later" pendingCmd 5 6
    pendingState (by decide) (by decide) (by decide)

/-- C2: an ack by a known, correctly authenticated device whose submitted
request_id differs from the stored one leaves the whole command store
unchanged, appends exactly one `ack_mismatch` event recording the submitted
id, the stored id and the submitted status, and returns accepted = false. -/
theorem ack_mismatch_frame (d k rid status : String) (c : Cmd) (t : Int)
    (s : ServerState) (hk : DEVICE_KEYS d = some k) (hc : s.commands d = some c)
    (hne : rid ≠ c.request_id) :
    (api_ack d rid status (some k) t s).1 =
      .ok { ok := false, detail := some "request_id mismatch" } ∧
    ((api_ack d rid status (some k) t s).2).commands = s.commands ∧
    ((api_ack d rid status (some k) t s).2).events =
      s.events ++ [mismatchEvent t d rid c.request_id status] := by
  have h := api_ack_mismatch_eval d k rid status c t s hk hc hne
  rw [h]
  exact ⟨rfl, rfl, rfl⟩

/-- C2 witness: concrete instance of the mismatch frame theorem. -/
theorem ack_mismatch_frame_witness :
    (api_ack "lock1" "r2" "done" (some lock1Key) 5 pendingState).1 =
      .ok { ok := false, detail := some "request_id mismatch" } ∧
    ((api_ack "lock1" "r2" "done" (some lock1Key) 5 pendingState).2).commands =
      pendingState.commands ∧
    ((api_ack "lock1" "r2" "done" (some lock1Key) 5 pendingState).2).events =
      pendingState.events ++ [mismatchEvent 5 "lock1" "r2" "r1" "done"] :=
  ack_mismatch_frame "lock1" lock1Key "r2" "done" pendingCmd 5 pendingState
    (by decide) (by decide) (by decide)

/-- C4: a successful issue always clamps the effective TTL into [3, 60], so
the returned expires_at lies within [now + 3, now + 60], for every supplied
ttl_seconds including negative, zero, large or absent values. -/
theorem issue_ttl_clamped (d req_id : String) (ttl_seconds : Option Int) (t : Int)
    (s : ServerState) (hk : (DEVICE_KEYS d).isSome) :
    ∃ r, (api_unlock d ttl_seconds (some ADMIN_API_KEY) req_id t s).1 = .ok r ∧
      t + 3 ≤ r.expires_at ∧ r.expires_at ≤ t + 60 := by
  obtain ⟨k, hk2⟩ := Option.isSome_iff_exists.mp hk
  refine ⟨{ ok := true, device_id := d, action := "unlock", request_id := req_id,
            expires_at := t + clampTtl ttl_seconds }, ?_, ?_, ?_⟩
  · rw [api_unlock_eval d k req_id ttl_seconds t s hk2]
  · have := (clampTtl_bounds ttl_seconds).1
    show t + 3 ≤ t + clampTtl ttl_seconds
    omega
  · have := (clampTtl_bounds ttl_seconds).2
    show t + clampTtl ttl_seconds ≤ t + 60
    omega

/-- C4 witness: concrete instance of the TTL clamping theorem. -/
theorem issue_ttl_clamped_witness :
    ∃ r, (api_unlock "lock1" (some 1000) (some ADMIN_API_KEY) "aabb" 7 initState).1 =
      .ok r ∧ 7 + 3 ≤ r.expires_at ∧ r.expires_at ≤ 7 + 60 :=
  issue_ttl_clamped "lock1" "aabb" (some 1000) 7 initState (by decide)

/-- C3: polling a known device holding a pending command strictly after its
expires_at resets the slot to NONE, appends exactly one `expired` event and
returns action NONE; a further poll of the now-NONE slot returns NONE and
changes nothing (idempotent lazy expiry); a poll at a time not exceeding
expires_at returns the stored command and changes nothing. -/
theorem poll_lazy_expiry (d k : String) (c : Cmd) (t t2 t3 : Int) (s : ServerState)
    (hk : DEVICE_KEYS d = some k) (hc : s.commands d = some c)
    (ha : c.action ≠ "none") :
    (t > c.expires_at →
      (api_command d t s).1 = .ok .actionNone ∧
      ((api_command d t s).2).commands d = some emptyCmd ∧
      ((api_command d t s).2).events = s.events ++ [expiredEvent t d] ∧
      api_command d t2 (api_command d t s).2 =
        (.ok (.full emptyCmd), (api_command d t s).2)) ∧
    (t3 ≤ c.expires_at → api_command d t3 s = (.ok (.full c), s)) := by
  constructor
  · intro ht
    have h1 := api_command_expire_eval d k c t s hk hc ha ht
    rw [h1]
    refine ⟨rfl, by simp, rfl, ?_⟩
    exact api_command_none_eval d k t2 _ hk (by simp)
  · intro ht3
    exact api_command_noexpire_eval d k c t3 s hk hc (fun h => not_lt.mpr ht3 h.2)

/-- C3 witness: concrete instance of the lazy-expiry theorem. -/
theorem poll_lazy_expiry_witness :
    (31 > pendingCmd.expires_at →
      (api_command "lock1" 31 pendingState).1 = .ok .actionNone ∧
      ((api_command "lock1" 31 pendingState).2).commands "lock1" = some emptyCmd ∧
      ((api_command "lock1" 31 pendingState).2).events =
        pendingState.events ++ [expiredEvent 31 "lock1"] ∧
      api_command "lock1" 40 (api_command "lock1" 31 pendingState).2 =
        (.ok (.full emptyCmd), (api_command "lock1" 31 pendingState).2)) ∧
    (30 ≤ pendingCmd.expires_at →
      api_command "lock1" 30 pendingState = (.ok (.full pendingCmd), pendingState)) :=
  poll_lazy_expiry "lock1" lock1Key pendingCmd 31 40 30 pendingState
    (by decide) (by decide) (by decide)

/-- C5 counterexample: an Issue naming an unknown device with an invalid admin
secret yields Unauthorized (401), not UnknownDevice (404) — the admin auth
check runs before the registry lookup in `api_unlock`. -/
theorem unlock_unknown_device_bad_key_unauthorized :
    (api_unlock "ghost" (some 10) (some "WRONG_KEY") "r" 0 initState).1 =
      .error { status_code := 401, detail := "Invalid admin API key" } ∧
    (api_unlock "ghost" (some 10) (some "WRONG_KEY") "r" 0 initState).1 ≠
      .error { status_code := 404, detail := "Unknown device_id" } := by decide

/-- C5 (amended): an unknown device_id yields UnknownDevice (404) with no
state change on Poll, on Acknowledge regardless of the supplied device key,
and on Issue when the admin secret is valid; an Issue with an invalid admin
secret yields Unauthorized (401) instead, also with no state change, because
`api_unlock` checks admin auth before the registry lookup. -/
theorem unknown_device_handling (d rid status req_id : String) (ttl : Option Int)
    (adminKey devKey : Option String) (t : Int) (s : ServerState)
    (hd : DEVICE_KEYS d = none) :
    api_command d t s =
      (.error { status_code := 404, detail := "Unknown device_id" }, s) ∧
    api_ack d rid status devKey t s =
      (.error { status_code := 404, detail := "Unknown device_id" }, s) ∧
    api_unlock d ttl (some ADMIN_API_KEY) req_id t s =
      (.error { status_code := 404, detail := "Unknown device_id" }, s) ∧
    (adminKey ≠ some ADMIN_API_KEY →
      api_unlock d ttl adminKey req_id t s =
        (.error { status_code := 401, detail := "Invalid admin API key" }, s)) := by
  refine ⟨?_, ?_, ?_, fun h => ?_⟩
  · simp [api_command, hd]
  · simp [api_ack, hd]
  · simp [api_unlock, hd]
  · simp [api_unlock, h]

/-- C5 witness: concrete instance of the unknown-device theorem. -/
theorem unknown_device_handling_witness :
    api_command "ghost" 0 initState =
      (.error { status_code := 404, detail := "Unknown device_id" }, initState) ∧
    api_ack "ghost" "r" "done" (some "ANY_KEY") 0 initState =
      (.error { status_code := 404, detail := "Unknown device_id" }, initState) ∧
    api_unlock "ghost" (some 10) (some ADMIN_API_KEY) "r" 0 initState =
      (.error { status_code := 404, detail := "Unknown device_id" }, initState) ∧
    (some "WRONG_KEY" ≠ some ADMIN_API_KEY →
      api_unlock "ghost" (some 10) (some "WRONG_KEY") "r" 0 initState =
        (.error { status_code := 401, detail := "Invalid admin API key" }, initState)) :=
  unknown_device_handling "ghost" "r" "done" "r" (some 10) (some "WRONG_KEY")
    (some "ANY_KEY") 0 initState (by decide)

/-- Iterated mismatched acknowledgments: each call hits the `ack_mismatch`
path of `api_ack`, which appends an event without any trim. -/
def spamState : Nat → ServerState
  | 0 => initState
  | n + 1 => (api_ack "lock1" "stale" "done" (some lock1Key) 0 (spamState n)).2

theorem spamState_inv (n : Nat) :
    (spamState (n + 1)).commands "lock1" = some emptyCmd ∧
    (spamState (n + 1)).events.length = n + 1 := by
  induction n with
  | zero => exact ⟨by decide, by decide⟩
  | succ m ih =>
      have h := api_ack_mismatch_eval "lock1" lock1Key "stale" "done" emptyCmd 0
        (spamState (m + 1)) device_keys_lock1 ih.1 (by decide)
      constructor
      · show ((api_ack "lock1" "stale" "done" (some lock1Key) 0
            (spamState (m + 1))).2).commands "lock1" = some emptyCmd
        rw [h]
        exact ih.1
      · show ((api_ack "lock1" "stale" "done" (some lock1Key) 0
            (spamState (m + 1))).2).events.length = m + 1 + 1
        rw [h]
        simp [ih.2]

/-- C6: the event log is NOT capacity-bounded by the code — 201 consecutive
mismatched acknowledgments grow the log to 201 entries, past the 200-entry
bound, because only `api_unlock` trims; `api_command` and `api_ack` append
without trimming. -/
theorem ack_spam_overflows_log :
    (spamState 201).events.length = 201 ∧ 200 < (spamState 201).events.length := by
  have h := (spamState_inv 200).2
  norm_num at h
  exact ⟨h, by omega⟩

/-- C7: issuing a second command while one is pending overwrites the slot
(last-issued-wins): the slot then holds the second command; an ack with the
first request_id is rejected, while an ack with the second request_id is
accepted and resets the slot to NONE. -/
theorem issue_overwrites_pending (d k r1 r2 st1 st2 : String) (ttl1 ttl2 : Option Int)
    (t0 t1 t2 t3 : Int) (s s1 s2 : ServerState)
    (hk : DEVICE_KEYS d = some k) (hne : r1 ≠ r2)
    (hs1 : s1 = (api_unlock d ttl1 (some ADMIN_API_KEY) r1 t0 s).2)
    (hs2 : s2 = (api_unlock d ttl2 (some ADMIN_API_KEY) r2 t1 s1).2) :
    s2.commands d = some { action := "unlock", request_id := r2,
                           expires_at := t1 + clampTtl ttl2, created_at := t1 } ∧
    (api_ack d r1 st1 (some k) t2 s2).1 =
      .ok { ok := false, detail := some "request_id mismatch" } ∧
    (api_ack d r2 st2 (some k) t3 s2).1 = .ok { ok := true, detail := none } ∧
    ((api_ack d r2 st2 (some k) t3 s2).2).commands d = some emptyCmd := by
  subst hs1 hs2
  have h2 := api_unlock_eval d k r2 ttl2 t1
    (api_unlock d ttl1 (some ADMIN_API_KEY) r1 t0 s).2 hk
  have hslot : ((api_unlock d ttl2 (some ADMIN_API_KEY) r2 t1
      (api_unlock d ttl1 (some ADMIN_API_KEY) r1 t0 s).2).2).commands d =
      some { action := "unlock", request_id := r2,
             expires_at := t1 + clampTtl ttl2, created_at := t1 } := by
    rw [h2]
    simp
  refine ⟨hslot, ?_, ?_, ?_⟩
  · rw [api_ack_mismatch_eval d k r1 st1 _ t2 _ hk hslot (by simpa using hne)]
  · rw [api_ack_match_eval d k r2 st2 _ t3 _ hk hslot rfl]
  · rw [api_ack_match_eval d k r2 st2 _ t3 _ hk hslot rfl]
    simp

/-- C7 witness: concrete instance of the overwrite theorem. -/
theorem issue_overwrites_pending_witness :
    ((api_unlock "lock1" (some 10) (some ADMIN_API_KEY) "bbbb" 1
        (api_unlock "lock1" (some 10) (some ADMIN_API_KEY) "aaaa" 0 initState).2).2).commands
        "lock1" =
      some { action := "unlock", request_id := "bbbb",
             expires_at := 1 + clampTtl (some 10), created_at := 1 } ∧
    (api_ack "lock1" "aaaa" "done" (some lock1Key) 2
        (api_unlock "lock1" (some 10) (some ADMIN_API_KEY) "bbbb" 1
          (api_unlock "lock1" (some 10) (some ADMIN_API_KEY) "aaaa" 0 initState).2).2).1 =
      .ok { ok := false, detail := some "request_id mismatch" } ∧
    (api_ack "lock1" "bbbb" "done" (some lock1Key) 3
        (api_unlock "lock1" (some 10) (some ADMIN_API_KEY) "bbbb" 1
          (api_unlock "lock1" (some 10) (some ADMIN_API_KEY) "aaaa" 0 initState).2).2).1 =
      .ok { ok := true, detail := none } ∧
    ((api_ack "lock1" "bbbb" "done" (some lock1Key) 3
        (api_unlock "lock1" (some 10) (some ADMIN_API_KEY) "bbbb" 1
          (api_unlock "lock1" (some 10) (some ADMIN_API_KEY) "aaaa" 0 initState).2).2).2).commands
        "lock1" =
      some emptyCmd :=
  issue_overwrites_pending "lock1" lock1Key "aaaa" "bbbb" "done" "done"
    (some 10) (some 10) 0 1 2 3 initState _ _ (by decide) (by decide) rfl rfl

/-- The per-slot invariant of the spec: the stored request_id is non-empty
iff the stored action is not NONE.  An absent slot trivially satisfies it. -/
def SlotInv : Option Cmd → Prop
  | none => True
  | some c => (c.request_id ≠ "" ↔ c.action ≠ "none")

/-- The invariant holds for every device slot of the store. -/
def StoreInv (s : ServerState) : Prop := ∀ d, SlotInv (s.commands d)

theorem slotInv_emptyCmd : SlotInv (some emptyCmd) := by
  show emptyCmd.request_id ≠ "" ↔ emptyCmd.action ≠ "none"
  simp [emptyCmd]

theorem storeInv_events (s : ServerState) (es : List Event) (hs : StoreInv s) :
    StoreInv { s with events := es } := fun d => hs d

theorem storeInv_update (s : ServerState) (d : String) (o : Option Cmd)
    (es : List Event) (hs : StoreInv s) (ho : SlotInv o) :
    StoreInv (ServerState.mk (fun x => if x = d then o else s.commands x) es) := by
  intro x
  show SlotInv (if x = d then o else s.commands x)
  by_cases hx : x = d
  · simpa [hx] using ho
  · simpa [hx] using hs x

theorem ensureSlot_storeInv (d : String) (s : ServerState) (hs : StoreInv s) :
    StoreInv (ensureSlot d s) := by
  unfold ensureSlot
  cases hc : s.commands d
  · exact storeInv_update s d (some emptyCmd) s.events hs slotInv_emptyCmd
  · exact hs

theorem api_unlock_storeInv (d req_id : String) (ttl : Option Int)
    (adminKey : Option String) (t : Int) (s : ServerState)
    (hs : StoreInv s) (hreq : req_id ≠ "") :
    StoreInv ((api_unlock d ttl adminKey req_id t s).2) := by
  by_cases hkey : adminKey = some ADMIN_API_KEY
  · cases hdk : DEVICE_KEYS d with
    | none =>
        simp only [api_unlock, hkey, if_pos rfl, hdk]
        exact hs
    | some k =>
        subst hkey
        rw [api_unlock_eval d k req_id ttl t s hdk]
        exact storeInv_update (ensureSlot d s) d _ _ (ensureSlot_storeInv d s hs)
          (by show req_id ≠ "" ↔ "unlock" ≠ "none"; simp [hreq])
  · simp only [api_unlock, if_neg hkey]
    exact hs

theorem ensureSlot_commands_self (d : String) (s : ServerState) :
    ∃ c, (ensureSlot d s).commands d = some c := by
  unfold ensureSlot
  cases hc : s.commands d with
  | none => exact ⟨emptyCmd, by simp⟩
  | some c => exact ⟨c, by simpa using hc⟩

theorem ensureSlot_idem (d : String) (s : ServerState) :
    ensureSlot d (ensureSlot d s) = ensureSlot d s := by
  obtain ⟨c, hc⟩ := ensureSlot_commands_self d s
  exact ensureSlot_of_some hc

theorem api_command_ensure (d k : String) (t : Int) (s : ServerState)
    (hk : DEVICE_KEYS d = some k) :
    api_command d t s = api_command d t (ensureSlot d s) := by
  simp only [api_command, hk, ensureSlot_idem]

theorem api_command_storeInv (d : String) (t : Int) (s : ServerState)
    (hs : StoreInv s) : StoreInv ((api_command d t s).2) := by
  cases hdk : DEVICE_KEYS d with
  | none =>
      simp only [api_command, hdk]
      exact hs
  | some k =>
      rw [api_command_ensure d k t s hdk]
      obtain ⟨c, hc⟩ := ensureSlot_commands_self d s
      have hs1 := ensureSlot_storeInv d s hs
      by_cases hcond : c.action ≠ "none" ∧ t > c.expires_at
      · rw [api_command_expire_eval d k c t (ensureSlot d s) hdk hc hcond.1 hcond.2]
        exact storeInv_update (ensureSlot d s) d (some emptyCmd) _ hs1 slotInv_emptyCmd
      · rw [api_command_noexpire_eval d k c t (ensureSlot d s) hdk hc hcond]
        exact hs1

theorem api_ack_storeInv (d rid status : String) (devKey : Option String)
    (t : Int) (s : ServerState) (hs : StoreInv s) :
    StoreInv ((api_ack d rid status devKey t s).2) := by
  cases hdk : DEVICE_KEYS d with
  | none =>
      simp only [api_ack, hdk]
      exact hs
  | some k =>
      have hs1 := ensureSlot_storeInv d s hs
      by_cases hkey : devKey = some k
      · cases hc : (ensureSlot d s).commands d with
        | none =>
            simp only [api_ack, hdk, hc, if_pos hkey]
            exact storeInv_events _ _ hs1
        | some c =>
            by_cases hr : rid = c.request_id
            · simp only [api_ack, hdk, hc, if_pos hkey, if_pos hr]
              exact storeInv_update (ensureSlot d s) d (some emptyCmd) _ hs1 slotInv_emptyCmd
            · simp only [api_ack, hdk, hc, if_pos hkey, if_neg hr]
              exact storeInv_events _ _ hs1
      · simp only [api_ack, hdk, if_neg hkey]
        exact hs1

/-- C8: the slot invariant — request_id non-empty iff action is not NONE —
holds of the initial state and is preserved by issue (for a non-empty fresh
request_id, as `token_hex(8)` always produces), by poll with lazy expiry, and
by acknowledge, over every starting state satisfying it. -/
theorem slot_invariant_preserved (d rid status req_id : String) (ttl : Option Int)
    (adminKey devKey : Option String) (t : Int) (s : ServerState)
    (hs : StoreInv s) (hreq : req_id ≠ "") :
    StoreInv initState ∧
    StoreInv ((api_unlock d ttl adminKey req_id t s).2) ∧
    StoreInv ((api_command d t s).2) ∧
    StoreInv ((api_ack d rid status devKey t s).2) :=
  ⟨fun _ => trivial,
   api_unlock_storeInv d req_id ttl adminKey t s hs hreq,
   api_command_storeInv d t s hs,
   api_ack_storeInv d rid status devKey t s hs⟩

theorem storeInv_pendingState : StoreInv pendingState := by
  intro x
  show SlotInv (if x = "lock1" then some pendingCmd else none)
  by_cases hx : x = "lock1"
  · simp only [if_pos hx]
    show pendingCmd.request_id ≠ "" ↔ pendingCmd.action ≠ "none"
    simp [pendingCmd]
  · simp only [if_neg hx]
    trivial

/-- C8 witness: concrete instance of the invariant preservation theorem. -/
theorem slot_invariant_preserved_witness :
    StoreInv initState ∧
    StoreInv ((api_unlock "lock1" (some 10) (some ADMIN_API_KEY) "fresh" 0 pendingState).2) ∧
    StoreInv ((api_command "lock1" 0 pendingState).2) ∧
    StoreInv ((api_ack "lock1" "r1" "done" (some lock1Key) 0 pendingState).2) :=
  slot_invariant_preserved "lock1" "r1" "done" "fresh" (some 10)
    (some ADMIN_API_KEY) (some lock1Key) 0 pendingState storeInv_pendingState
    (by decide)

/-- C9: with the correct admin secret, ListEvents returns a suffix of the
event log — the most recent events in append (chronological) order — of
length at most 100, in every state of the log. -/
theorem events_tail_bounded_ordered (s : ServerState) :
    ∃ es, api_events (some ADMIN_API_KEY) s = .ok es ∧
      es.length ≤ 100 ∧ es <:+ s.events := by
  refine ⟨s.events.drop (s.events.length - 100), ?_, ?_, ?_⟩
  · simp [api_events]
  · rw [List.length_drop]
    omega
  · exact List.drop_suffix _ _

/-- C10: for a known, correctly authenticated device whose slot holds no
pending command (stored request_id is empty), an ack submitting the empty
request_id is treated as an exact match: it returns accepted = true and
appends an `ack` event. -/
theorem ack_empty_on_empty_accepted (d k status : String) (c : Cmd) (t : Int)
    (s : ServerState) (hk : DEVICE_KEYS d = some k) (hc : s.commands d = some c)
    (he : c.request_id = "") :
    (api_ack d "" status (some k) t s).1 = .ok { ok := true, detail := none } ∧
    ((api_ack d "" status (some k) t s).2).events =
      s.events ++ [ackEvent t d "" status] := by
  rw [api_ack_match_eval d k "" status c t s hk hc he.symm]
  exact ⟨rfl, rfl⟩

/-- C10 witness: concrete instance of the empty-ack theorem. -/
theorem ack_empty_on_empty_accepted_witness :
    (api_ack "lock1" "" "done" (some lock1Key) 3
        (ServerState.mk (fun x => if x = "lock1" then some emptyCmd else none) [])).1 =
      .ok { ok := true, detail := none } ∧
    ((api_ack "lock1" "" "done" (some lock1Key) 3
        (ServerState.mk (fun x => if x = "lock1" then some emptyCmd else none) [])).2).events =
      (ServerState.mk (fun x => if x = "lock1" then some emptyCmd else none) []).events
        ++ [ackEvent 3 "lock1" "" "done"] :=
  ack_empty_on_empty_accepted "lock1" lock1Key "done" emptyCmd 3
    (ServerState.mk (fun x => if x = "lock1" then some emptyCmd else none) [])
    (by decide) (by decide) (by decide)
